import Mathlib

/-!
# Verification of the process launch/lifecycle subsystem

Shallow embedding of `src/Library/native/pal_process.c` and
`src/Library/native/process_spawn.c`.

Modelling conventions:
* Machine integers (`int`, `pid_t`) are `Int`; none of the verified code paths
  overflow, so no wrap-around modelling is needed.
* Native signal numbers and errno values use the Linux numbering, which is the
  platform the cited code paths (`clone3`, pidfd, `tgkill`) target.
* Syscalls are nondeterministic: each call site consumes an oracle value of
  type `SysRes α` (`ok` with the success payload, or `err` with the errno the
  call failed with).  A C `while (call() < 0 && errno == EINTR);` retry loop
  consumes a *list* of oracle values and settles on the first non-EINTR one;
  an exhausted list models a call sequence that never settles (the loop is
  still running), surfaced as `none` in an `Option` result.
-/

/-- Result of one syscall invocation: success payload or failing errno. -/
inductive SysRes (α : Type) where
  | ok (a : α)
  | err (e : Int)
deriving DecidableEq, Repr

/- Errno values (Linux numbering). -/

def ENOENT : Int := 2
def ESRCH : Int := 3
def EINTR : Int := 4
def ECHILD : Int := 10
def EINVAL : Int := 22
def ENOTSUP : Int := 95

/- Native signal numbers (Linux numbering), as used by the C sources through
the platform's `SIGxxx` constants. -/

def SIGHUP : Int := 1
def SIGINT : Int := 2
def SIGQUIT : Int := 3
def SIGABRT : Int := 6
def SIGKILL : Int := 9
def SIGUSR1 : Int := 10
def SIGUSR2 : Int := 12
def SIGPIPE : Int := 13
def SIGALRM : Int := 14
def SIGTERM : Int := 15
def SIGCHLD : Int := 17
def SIGCONT : Int := 18
def SIGSTOP : Int := 19
def SIGTSTP : Int := 20
def SIGTTIN : Int := 21
def SIGTTOU : Int := 22
def SIGWINCH : Int := 28

/-- `while ((ret = call()) < 0 && errno == EINTR);` — settle on the first
oracle entry that is not an EINTR failure; `none` if the calls never settle. -/
def firstNonEintr {α : Type} : List (SysRes α) → Option (SysRes α)
  | [] => none
  | .ok a :: _ => some (.ok a)
  | .err e :: rest => if e = EINTR then firstNonEintr rest else some (.err e)

/-- `ret == 0 ? Ok : errno` — package one syscall result as the
success/errno pair the C caller observes. -/
def sysToExcept (sys : SysRes Unit) : Except Int Unit :=
  match sys with
  | .ok _ => .ok ()
  | .err e => .error e

/-- A signal-delivery syscall attempted by `send_signal`, recorded with the
native signal number passed to it. -/
inductive SigCall where
  | pidfdSendSignal (sig : Int)
  | kill (sig : Int)
deriving DecidableEq, Repr

/-- A child-creation primitive `spawn_process` can select. -/
inductive ForkPrimitive where
  | clone3 (useVfork : Bool)
  | fork
  | vfork
  | posixSpawn
deriving DecidableEq, Repr

/-- `true` exactly for the primitives whose semantics suspend the parent
until the child execs or exits (vfork, or clone3 with `CLONE_VFORK`). -/
def usesVforkSemantics : ForkPrimitive → Bool
  | .clone3 useVfork => useVfork
  | .fork => false
  | .vfork => true
  | .posixSpawn => false

/-- The two pipes `spawn_process` creates before forking. -/
inductive PipeName where
  | waitPipe
  | exitPipe
deriving DecidableEq, Repr

/-- Descriptors the parent branch of `spawn_process` owns and closes. -/
inductive FdName where
  | waitPipeRead
  | waitPipeWrite
  | exitPipeRead
  | exitPipeWrite
  | pidfd
deriving DecidableEq, Repr

/-- Observable effects of one `spawn_process` call, in program order. -/
inductive SpawnEvent where
  | pipeCreated (p : PipeName)
  | childCreated (prim : ForkPrimitive)
  | readAttempt
  | reapAttempted
  | reaped
  | closedFd (f : FdName)
deriving DecidableEq, Repr

/-- Result of the parent's single `read` from the bootstrap wait pipe:
`full e` models `bytes_read == sizeof(int)` carrying the child's errno;
`eof` models a zero/short read (the success signal); `fail e` models a read
failure with errno `e` — the code only compares `bytes_read` against
`sizeof(int)`, so a failure is indistinguishable from the success signal. -/
inductive ReadOutcome where
  | full (e : Int)
  | eof
  | fail (e : Int)
deriving DecidableEq, Repr

/-- The `WIFSTOPPED` check on the status returned by the suspended-child
`waitpid(…, WUNTRACED)` wait. -/
inductive StopStatus where
  | stopped
  | notStopped
deriving DecidableEq, Repr

/-- Observable result of one `spawn_process` call.  `blocked`: a retry loop
never settles; `fails e`: returned `-1` with errno `e` (no handle);
`succeeds pidfdValid`: returned `0`, with the pidfd out-param valid exactly
when `pidfdValid`. -/
inductive SpawnOutcome where
  | blocked
  | fails (e : Int)
  | succeeds (pidfdValid : Bool)
deriving DecidableEq, Repr

namespace PalProcess

/-- `map_managed_signal_to_native` (pal_process.c:679-698): ProcessSignal
enum value → native signal number, `-1` for anything outside the table. -/
def map_managed_signal_to_native (managed_signal : Int) : Int :=
  if managed_signal = 1 then SIGHUP
  else if managed_signal = 2 then SIGINT
  else if managed_signal = 3 then SIGQUIT
  else if managed_signal = 6 then SIGABRT
  else if managed_signal = 9 then SIGKILL
  else if managed_signal = 10 then SIGUSR1
  else if managed_signal = 12 then SIGUSR2
  else if managed_signal = 13 then SIGPIPE
  else if managed_signal = 14 then SIGALRM
  else if managed_signal = 15 then SIGTERM
  else if managed_signal = 17 then SIGCHLD
  else if managed_signal = 18 then SIGCONT
  else if managed_signal = 19 then SIGSTOP
  else if managed_signal = 20 then SIGTSTP
  else -1

/-- `map_native_signal_to_managed` (pal_process.c:700-718): native signal
number → ProcessSignal enum value, `-1` for anything outside the table. -/
def map_native_signal_to_managed (native_signal : Int) : Int :=
  if native_signal = SIGHUP then 1
  else if native_signal = SIGINT then 2
  else if native_signal = SIGQUIT then 3
  else if native_signal = SIGABRT then 6
  else if native_signal = SIGKILL then 9
  else if native_signal = SIGUSR1 then 10
  else if native_signal = SIGUSR2 then 12
  else if native_signal = SIGPIPE then 13
  else if native_signal = SIGALRM then 14
  else if native_signal = SIGTERM then 15
  else if native_signal = SIGCHLD then 17
  else if native_signal = SIGCONT then 18
  else if native_signal = SIGSTOP then 19
  else if native_signal = SIGTSTP then 20
  else -1

/-- Result the kernel reports for one `waitid` success: `si_code` restricted to
the child-status codes the source inspects, plus `si_status` and `si_pid`. -/
inductive SiCode where
  | CLD_KILLED
  | CLD_DUMPED
  | CLD_EXITED
  | other
deriving DecidableEq, Repr

structure Siginfo where
  si_code : SiCode
  si_status : Int
  si_pid : Int
deriving DecidableEq, Repr

/-- A `wstatus` as decoded by the `WIFEXITED`/`WIFSIGNALED`/`WIFSTOPPED`
macros: the three disjoint shapes the source distinguishes. -/
inductive WaitStatus where
  | exited (code : Int)
  | signaled (sig : Int)
  | stopped (sig : Int)
deriving DecidableEq, Repr

/-- `map_status`, `HAVE_PIDFD` variant (pal_process.c:757-772): decode a
`siginfo_t`; `some (exitCode, signal)` models the `return 0` with out-params,
`none` models `return -1` (unknown state). -/
def map_status (info : Siginfo) : Option (Int × Int) :=
  match info.si_code with
  | .CLD_KILLED => some (128 + info.si_status,
      map_native_signal_to_managed info.si_status)
  | .CLD_DUMPED => some (128 + info.si_status,
      map_native_signal_to_managed info.si_status)
  | .CLD_EXITED => some (info.si_status, 0)
  | .other => none

/-- `map_status`, non-`HAVE_PIDFD` variant (pal_process.c:742-755): decode a
`waitpid` status; `none` models `return -1` (still running / unknown). -/
def map_status_no_pidfd (status : WaitStatus) : Option (Int × Int) :=
  match status with
  | .exited code => some (code, 0)
  | .signaled sig => some (128 + sig, map_native_signal_to_managed sig)
  | .stopped _ => none

/-- `try_get_exit_code`, `HAVE_PIDFD` variant (pal_process.c:777-799).
The oracle list feeds the `waitid(P_PIDFD, …, WEXITED | WNOHANG)` retry loop;
`.ok info` with `si_pid = 0` is the "no state change yet" success shape
`WNOHANG` produces for a still-running child.  Outer `none`: the EINTR loop
never settles; inner `none`: the function returned `-1` (still running or
error); `some (c, s)`: returned `0` with out-params `c`, `s`. -/
def try_get_exit_code (rs : List (SysRes Siginfo)) : Option (Option (Int × Int)) :=
  match firstNonEintr rs with
  | none => none
  | some (.ok info) => some (if info.si_pid ≠ 0 then map_status info else none)
  | some (.err _) => some none

/-- `try_get_exit_code`, non-`HAVE_PIDFD` variant (pal_process.c:788-795):
`waitpid(pid, …, WNOHANG)` retry loop; `.ok none` models `ret = 0`
(still running), `.ok (some st)` models `ret > 0` with status `st`. -/
def try_get_exit_code_no_pidfd (rs : List (SysRes (Option WaitStatus))) :
    Option (Option (Int × Int)) :=
  match firstNonEintr rs with
  | none => none
  | some (.ok (some st)) => some (map_status_no_pidfd st)
  | some (.ok none) => some none
  | some (.err _) => some none

/-- `wait_for_exit_and_reap`, `HAVE_PIDFD` variant (pal_process.c:802-821):
blocking `waitid(P_PIDFD, …, WEXITED)` retry loop, then `map_status`. -/
def wait_for_exit_and_reap (rs : List (SysRes Siginfo)) :
    Option (Option (Int × Int)) :=
  match firstNonEintr rs with
  | none => none
  | some (.ok info) => some (map_status info)
  | some (.err _) => some none

/-- `wait_for_exit_and_reap`, non-`HAVE_PIDFD` variant (pal_process.c:812-818):
blocking `waitpid` retry loop, then `map_status`. -/
def wait_for_exit_and_reap_no_pidfd (rs : List (SysRes WaitStatus)) :
    Option (Option (Int × Int)) :=
  match firstNonEintr rs with
  | none => none
  | some (.ok st) => some (map_status_no_pidfd st)
  | some (.err _) => some none

/-- `send_signal` (pal_process.c:720-739).  Returns the result the caller
observes together with the list of signal-delivery syscalls attempted.
`hasPidfdSendSignal` models `HAVE_PIDFD_SEND_SIGNAL`; `sys` is the oracle
result of the one delivery syscall that is attempted (if any). -/
def send_signal (hasPidfdSendSignal : Bool) (pidfd : Int)
    (managed_signal : Int) (sys : SysRes Unit) :
    Except Int Unit × List SigCall :=
  let native_signal := map_managed_signal_to_native managed_signal
  if native_signal = -1 then
    (.error EINVAL, [])
  else if hasPidfdSendSignal ∧ 0 ≤ pidfd then
    (sysToExcept sys, [.pidfdSendSignal native_signal])
  else
    (sysToExcept sys, [.kill native_signal])

/-- Oracle for `try_wait_for_exit` (poll-based variant): one entry per
`poll` call (`.ok true` = ret > 0, descriptor readable; `.ok false` = ret 0,
timeout) plus the `waitid` calls of the `wait_for_exit_and_reap` stage. -/
structure TryWaitOracle where
  poll : List (SysRes Bool)
  reap : List (SysRes Siginfo)
deriving Repr

/-- Observable result of `try_wait_for_exit`: `-1`, `1` (timeout), or `0`
with the exit code / signal out-params. -/
inductive TryWaitRes where
  | error
  | timedOut
  | exited (code : Int) (sig : Int)
deriving DecidableEq, Repr

/-- `try_wait_for_exit`, poll variant (pal_process.c:863-888): poll the
process descriptor (or exit pipe) retrying EINTR; `-1` on poll error, `1` on
timeout, otherwise collect the status via `wait_for_exit_and_reap`. -/
def try_wait_for_exit (o : TryWaitOracle) : Option TryWaitRes :=
  match firstNonEintr o.poll with
  | none => none
  | some (.err _) => some .error
  | some (.ok false) => some .timedOut
  | some (.ok true) =>
    match wait_for_exit_and_reap o.reap with
    | none => none
    | some none => some .error
    | some (some (c, s)) => some (.exited c s)

/-- Observable result of `wait_for_exit_or_kill_on_timeout`.  `done c s t`
models `return 0` with out-params exit code `c`, signal `s` and
`*out_timeout = t` (`false` also covers the exited-within-timeout path, where
the flag is never written); `killError e` models `return -1` right after the
kill step failed with errno `e`; `error` models the other `-1` returns. -/
inductive KillWaitRes where
  | error
  | killError (e : Int)
  | done (code : Int) (sig : Int) (timedOut : Bool)
deriving DecidableEq, Repr

/-- `wait_for_exit_or_kill_on_timeout` (pal_process.c:892-916): bounded wait;
on timeout send SIGKILL (via `send_signal`, so through the pidfd when
available); a kill failure with ESRCH clears the timeout flag and proceeds to
reap, any other kill failure is returned; finally reap unboundedly. -/
def wait_for_exit_or_kill_on_timeout (hasPidfdSendSignal : Bool) (pidfd : Int)
    (o : TryWaitOracle) (killSys : SysRes Unit)
    (finalReap : List (SysRes Siginfo)) : Option KillWaitRes :=
  match try_wait_for_exit o with
  | none => none
  | some .error => some .error
  | some (.exited c s) => some (.done c s false)
  | some .timedOut =>
    match (send_signal hasPidfdSendSignal pidfd
        (map_native_signal_to_managed SIGKILL) killSys).1 with
    | .ok _ =>
      (wait_for_exit_and_reap finalReap).map fun r =>
        match r with
        | none => .error
        | some (c, s) => .done c s true
    | .error e =>
      if e = ESRCH then
        (wait_for_exit_and_reap finalReap).map fun r =>
          match r with
          | none => .error
          | some (c, s) => .done c s false
      else some (.killError e)

/-- A signal disposition as seen through `sigaction`: default handler,
ignored, or a custom handler installed. -/
inductive Disp where
  | dfl
  | ign
  | custom
deriving DecidableEq, Repr

/-- One iteration of the child-bootstrap signal reset loop
(pal_process.c:488-501, process_spawn.c:213-226) at signal number `sig`:
skip the two unalterable signals, then put the default handler back only if
the currently queried disposition is a custom handler.  The `sigaction`
query is modelled as succeeding for every signal the loop visits. -/
def resetStep (acc : Int → Disp) (sig : Int) : Int → Disp :=
  if sig = SIGKILL ∨ sig = SIGSTOP then acc
  else if acc sig = .custom then Function.update acc sig .dfl else acc

def resetSignalFold (L : List Int) (d : Int → Disp) : Int → Disp :=
  L.foldl resetStep d

/-- The signal numbers `for (int sig = 1; sig < NSIG; sig++)` visits. -/
def sigList (nsig : Nat) : List Int :=
  (List.range' 1 (nsig - 1)).map Int.ofNat

/-- The whole child-bootstrap signal reset loop: fold `resetStep` over
signals `1 … NSIG-1` starting from the inherited dispositions `d`. -/
def resetSignalLoop (nsig : Nat) (d : Int → Disp) : Int → Disp :=
  resetSignalFold (sigList nsig) d

/-- Signal-disposition effect requested by the posix_spawn launch path
(pal_process.c:198, 232-241): the source sets `POSIX_SPAWN_SETSIGDEF` with a
`sigfillset` mask, and per POSIX every signal in the `sigdefault` set — an
ignored one included — starts with the default action in the child; only the
two unalterable signals keep their disposition. -/
def posixSpawnSigReset (d : Int → Disp) : Int → Disp :=
  fun s => if s = SIGKILL ∨ s = SIGSTOP then d s else .dfl

/-- Child-creation primitive selection on the fork/exec path
(pal_process.c:397-426): with clone3, `flags = (create_suspended ? 0 :
CLONE_VFORK) | CLONE_PIDFD`; without clone3, `create_suspended ? fork() :
vfork()`. -/
def choose_fork_primitive (hasClone3 : Bool) (create_suspended : Bool) :
    ForkPrimitive :=
  if hasClone3 then .clone3 (!create_suspended)
  else if create_suspended then .fork else .vfork

/-- Launch options and platform capabilities the child bootstrap branches
on.  `hasPdeathsig` models `HAVE_PDEATHSIG`; the descriptor numbers matter
only through the `!= 0/1/2` comparisons of the redirection steps. -/
structure ChildConfig where
  create_new_process_group : Bool
  kill_on_parent_death : Bool
  hasPdeathsig : Bool
  create_suspended : Bool
  stdin_fd : Int
  stdout_fd : Int
  stderr_fd : Int
  hasWorkingDir : Bool
deriving DecidableEq, Repr

/-- Oracle for the child-bootstrap syscalls, one entry per call site;
`execveErr = none` models an `execve` that replaces the image (and so never
returns), `some e` an `execve` failing with errno `e`. -/
structure ChildOracle where
  setpgidRes : SysRes Unit
  prctlRes : SysRes Unit
  ppid : Int
  dup2ExitPipeRes : SysRes Unit
  dup2StdinRes : SysRes Unit
  dup2StdoutRes : SysRes Unit
  dup2StderrRes : SysRes Unit
  chdirRes : SysRes Unit
  execveErr : Option Int
deriving DecidableEq, Repr

/-- How the child terminates (or escapes into the new image).
`wroteErrnoExit127 e` models `write_errno_and_exit(wait_pipe[1], e)`
(pal_process.c:46-50): errno written to the bootstrap pipe, `_exit(127)`;
`exit127NoWrite` models the bare `_exit(127)` of pal_process.c:595, reached
when `execve` fails after the suspended child already closed the pipe;
`exit0ParentGone` models the `_exit(0)` of the parent-death race check. -/
inductive ChildOutcome where
  | execed
  | wroteErrnoExit127 (e : Int)
  | exit0ParentGone
  | exit127NoWrite
deriving DecidableEq, Repr

/-- Steps of the child bootstrap from the wait-pipe close onwards
(pal_process.c:503-596): dup the exit pipe's write end onto fd 3, redirect
the three standard streams where they differ from 0/1/2, change directory if
requested, suspend if requested (closing the wait pipe first), then `execve`.
The signal reset loop sits earlier in the sequence and cannot fail; its
state effect is `resetSignalLoop`. -/
def child_bootstrap_streams (cfg : ChildConfig) (o : ChildOracle) :
    ChildOutcome :=
  match o.dup2ExitPipeRes with
  | .err e => .wroteErrnoExit127 e
  | .ok _ =>
  match (if cfg.stdin_fd ≠ 0 then o.dup2StdinRes else .ok ()) with
  | .err e => .wroteErrnoExit127 e
  | .ok _ =>
  match (if cfg.stdout_fd ≠ 1 then o.dup2StdoutRes else .ok ()) with
  | .err e => .wroteErrnoExit127 e
  | .ok _ =>
  match (if cfg.stderr_fd ≠ 2 then o.dup2StderrRes else .ok ()) with
  | .err e => .wroteErrnoExit127 e
  | .ok _ =>
  match (if cfg.hasWorkingDir then o.chdirRes else .ok ()) with
  | .err e => .wroteErrnoExit127 e
  | .ok _ =>
  match o.execveErr with
  | none => .execed
  | some e =>
    if cfg.create_suspended then .exit127NoWrite else .wroteErrnoExit127 e

/-- The full child bootstrap of the fork/exec path (pal_process.c:442-596):
optional new process group, optional parent-death signal with its
already-reparented race check, then `child_bootstrap_streams`. -/
def child_bootstrap (cfg : ChildConfig) (o : ChildOracle) : ChildOutcome :=
  match (if cfg.create_new_process_group then o.setpgidRes else .ok ()) with
  | .err e => .wroteErrnoExit127 e
  | .ok _ =>
    if cfg.kill_on_parent_death ∧ cfg.hasPdeathsig then
      match o.prctlRes with
      | .err e => .wroteErrnoExit127 e
      | .ok _ =>
        if o.ppid = 1 then .exit0ParentGone
        else child_bootstrap_streams cfg o
    else child_bootstrap_streams cfg o

/-- Platform capabilities and the launch option the fork/exec path of
`spawn_process` branches on before and after forking. -/
structure SpawnConfig where
  hasClone3 : Bool
  hasSysTgkill : Bool
  create_suspended : Bool
deriving DecidableEq, Repr

/-- Oracle for the parent-side syscalls of the fork/exec path.  `reapRes` is
the single `waitid`/`waitpid` of the bootstrap-failure path (pal_process.c:
617-623), issued once with its result unchecked; `stopWait` feeds the
`waitpid(…, WUNTRACED)` EINTR retry loop of the suspended path. -/
structure SpawnOracle where
  waitPipeRes : SysRes Unit
  exitPipeRes : SysRes Unit
  forkRes : SysRes Unit
  readRes : ReadOutcome
  reapRes : SysRes Unit
  stopWait : List (SysRes StopStatus)
deriving DecidableEq, Repr

/-- `spawn_process`, fork/exec path (pal_process.c:362-674), parent view:
early ENOTSUP check when suspension is unsupported, pipe creation, primitive
selection and fork, then the bootstrap handshake read and either the
bootstrap-failure cleanup or the suspended-stop wait.  Returns the observable
outcome paired with the event trace in program order.
`process_spawn.c`'s `spawn_process` is this path with `hasClone3 = true`
(on Linux) and `create_suspended = false`, minus the tgkill check. -/
def spawn_process_fork (cfg : SpawnConfig) (o : SpawnOracle) :
    SpawnOutcome × List SpawnEvent :=
  if ¬cfg.hasSysTgkill ∧ cfg.create_suspended then (.fails ENOTSUP, [])
  else
  match o.waitPipeRes with
  | .err e => (.fails e, [])
  | .ok _ =>
  match o.exitPipeRes with
  | .err e => (.fails e, [.pipeCreated .waitPipe, .closedFd .waitPipeRead,
      .closedFd .waitPipeWrite])
  | .ok _ =>
  match o.forkRes with
  | .err e => (.fails e, [.pipeCreated .waitPipe, .pipeCreated .exitPipe,
      .closedFd .waitPipeRead, .closedFd .waitPipeWrite,
      .closedFd .exitPipeRead, .closedFd .exitPipeWrite])
  | .ok _ =>
  let prim := choose_fork_primitive cfg.hasClone3 cfg.create_suspended
  let pre : List SpawnEvent := [.pipeCreated .waitPipe,
      .pipeCreated .exitPipe, .childCreated prim, .closedFd .waitPipeWrite,
      .closedFd .exitPipeWrite, .readAttempt, .closedFd .waitPipeRead]
  let pidfdClose : List SpawnEvent :=
      if cfg.hasClone3 then [.closedFd .pidfd] else []
  match o.readRes with
  | .full e =>
    let reapEvs : List SpawnEvent :=
      match o.reapRes with
      | .ok _ => [.reapAttempted, .reaped]
      | .err _ => [.reapAttempted]
    (.fails e, pre ++ reapEvs ++ pidfdClose ++ [.closedFd .exitPipeRead])
  | _ =>
    if cfg.create_suspended then
      match firstNonEintr o.stopWait with
      | none => (.blocked, pre)
      | some (.err e) =>
          (.fails e, pre ++ pidfdClose ++ [.closedFd .exitPipeRead])
      | some (.ok .notStopped) =>
          (.fails ECHILD, pre ++ pidfdClose ++ [.closedFd .exitPipeRead])
      | some (.ok .stopped) => (.succeeds cfg.hasClone3, pre)
    else (.succeeds cfg.hasClone3, pre)

/-- Platform capabilities and launch options the posix_spawn path branches
on before creating anything. -/
structure PosixSpawnConfig where
  hasStartSuspended : Bool
  hasAddChdirNp : Bool
  create_suspended : Bool
  hasWorkingDir : Bool
deriving DecidableEq, Repr

/-- Oracle for the posix_spawn path: the exit-pipe creation, the attribute /
file-action setup calls (condensed into one result — each of them fails the
launch the same way, closing both pipe ends), and `posix_spawn` itself. -/
structure PosixSpawnOracle where
  exitPipeRes : SysRes Unit
  setupRes : SysRes Unit
  spawnRes : SysRes Unit
deriving DecidableEq, Repr

/-- `spawn_process`, posix_spawn path (pal_process.c:165-360): early ENOTSUP
check without `POSIX_SPAWN_START_SUSPENDED`, exit-pipe creation, attribute
setup, the ENOTSUP working-directory check without `addchdir_np`, then
`posix_spawn`; no pidfd is ever produced on this path. -/
def spawn_process_posix (cfg : PosixSpawnConfig) (o : PosixSpawnOracle) :
    SpawnOutcome × List SpawnEvent :=
  if ¬cfg.hasStartSuspended ∧ cfg.create_suspended then (.fails ENOTSUP, [])
  else
  match o.exitPipeRes with
  | .err e => (.fails e, [])
  | .ok _ =>
  match o.setupRes with
  | .err e => (.fails e, [.pipeCreated .exitPipe, .closedFd .exitPipeRead,
      .closedFd .exitPipeWrite])
  | .ok _ =>
  if cfg.hasWorkingDir ∧ ¬cfg.hasAddChdirNp then
    (.fails ENOTSUP, [.pipeCreated .exitPipe, .closedFd .exitPipeRead,
      .closedFd .exitPipeWrite])
  else
  match o.spawnRes with
  | .err e => (.fails e, [.pipeCreated .exitPipe, .closedFd .exitPipeWrite,
      .closedFd .exitPipeRead])
  | .ok _ => (.succeeds false, [.pipeCreated .exitPipe,
      .childCreated .posixSpawn, .closedFd .exitPipeWrite])

end PalProcess

namespace ProcessSpawn

/-- `map_managed_signal_to_native` (process_spawn.c:337-353): PosixSignal
enum value (negative numbering, `9` special-cased for SIGKILL) → native
signal number, `-1` for anything outside the table. -/
def map_managed_signal_to_native (managed_signal : Int) : Int :=
  if managed_signal = 9 then SIGKILL
  else if managed_signal = -1 then SIGHUP
  else if managed_signal = -2 then SIGINT
  else if managed_signal = -3 then SIGQUIT
  else if managed_signal = -4 then SIGTERM
  else if managed_signal = -5 then SIGCHLD
  else if managed_signal = -6 then SIGCONT
  else if managed_signal = -7 then SIGWINCH
  else if managed_signal = -8 then SIGTTIN
  else if managed_signal = -9 then SIGTTOU
  else if managed_signal = -10 then SIGTSTP
  else -1

/-- `send_signal` (process_spawn.c:359-379).  `isLinux` models `__linux__`:
on Linux a valid pidfd selects `pidfd_send_signal`, otherwise `kill`. -/
def send_signal (isLinux : Bool) (pidfd : Int) (managed_signal : Int)
    (sys : SysRes Unit) : Except Int Unit × List SigCall :=
  let native_signal := map_managed_signal_to_native managed_signal
  if native_signal = -1 then
    (.error EINVAL, [])
  else if isLinux ∧ 0 ≤ pidfd then
    (sysToExcept sys, [.pidfdSendSignal native_signal])
  else
    (sysToExcept sys, [.kill native_signal])

/-- `get_exit_code_from_status` (process_spawn.c:391-399): `WEXITSTATUS` if the
process exited normally, `-1` if it was terminated by a signal. -/
def get_exit_code_from_status (status : PalProcess.WaitStatus) : Int :=
  match status with
  | .exited code => code
  | _ => -1

/-- `wait_for_exit_linux_waitid` (process_spawn.c:404-417): blocking
`waitid(P_PIDFD, …, WEXITED)` retry loop; on success returns the raw
`si_status` field, on non-EINTR failure returns `-1`. -/
def wait_for_exit_linux_waitid (rs : List (SysRes PalProcess.Siginfo)) :
    Option Int :=
  match firstNonEintr rs with
  | none => none
  | some (.ok info) => some info.si_status
  | some (.err _) => some (-1)

/-- `wait_for_exit`, non-Linux indefinite-wait branch
(process_spawn.c:469-482): blocking `waitpid` retry loop, decoded with
`get_exit_code_from_status`. -/
def wait_for_exit_indefinite_unix (rs : List (SysRes PalProcess.WaitStatus)) :
    Option Int :=
  match firstNonEintr rs with
  | none => none
  | some (.ok st) => some (get_exit_code_from_status st)
  | some (.err _) => some (-1)

/-- Oracle for the Linux branch of `wait_for_exit`: one entry per `poll` call
(`.ok true` = pidfd readable, `.ok false` = timeout) and the `waitid` calls of
the final `wait_for_exit_linux_waitid`. -/
structure WaitForExitOracle where
  poll : List (SysRes Bool)
  reap : List (SysRes PalProcess.Siginfo)
deriving Repr

/-- `wait_for_exit`, Linux branch (process_spawn.c:424-466).  `timeout_ms = -1`
waits via `wait_for_exit_linux_waitid` directly; otherwise it polls the pidfd
(retrying EINTR), and on timeout sends SIGKILL through the pidfd (result
ignored) before reaping — in every exit-reporting path the returned value is
the raw `si_status` produced by `wait_for_exit_linux_waitid`, or `-1`. -/
def wait_for_exit (timeout_ms : Int) (o : WaitForExitOracle) : Option Int :=
  if timeout_ms = -1 then
    wait_for_exit_linux_waitid o.reap
  else
    match firstNonEintr o.poll with
    | none => none
    | some (.err _) => some (-1)
    | some (.ok _) => wait_for_exit_linux_waitid o.reap

/-- Oracle for the macOS timeout branch of `wait_for_exit`: the `kqueue`
creation, the `fcntl` CLOEXEC call, the single `kevent` call (`.ok true` =
one event, process exited; `.ok false` = zero events, timeout), and the
`waitpid` calls of the final reap loop. -/
structure MacTimeoutOracle where
  kqueueRes : SysRes Unit
  fcntlRes : SysRes Unit
  keventRes : SysRes Bool
  reap : List (SysRes PalProcess.WaitStatus)
deriving Repr

/-- `wait_for_exit`, macOS timeout branch (process_spawn.c:484-559).
`.error e` models `return -1` with errno `e`; `.ok c` models returning the
value `get_exit_code_from_status` produced.  The `kevent` at line 511 is a
single call with no EINTR retry: its failure — EINTR included — is returned
to the caller.  On `.ok false` (timeout) the code first sends SIGKILL with
`kill` (result ignored); both the timeout and the exited branch then delete
the kqueue event, close the queue, and run the same `waitpid` retry loop. -/
def wait_for_exit_macos_timeout (o : MacTimeoutOracle) :
    Option (Except Int Int) :=
  match o.kqueueRes with
  | .err e => some (.error e)
  | .ok _ =>
  match o.fcntlRes with
  | .err e => some (.error e)
  | .ok _ =>
  match o.keventRes with
  | .err e => some (.error e)
  | .ok _ =>
    match firstNonEintr o.reap with
    | none => none
    | some (.ok st) => some (.ok (get_exit_code_from_status st))
    | some (.err e) => some (.error e)

/-- `wait_for_exit`, generic-Unix timeout fallback (process_spawn.c:561-580):
a `waitpid(pid, …, WNOHANG)` busy-poll loop with a 10ms sleep; `.ok none`
models `result = 0` (still running, sleep and retry), `.ok (some st)` models
`result = pid`; an EINTR failure is retried, any other failure returns `-1`
with that errno. -/
def wait_for_exit_poll_unix (rs : List (SysRes (Option PalProcess.WaitStatus))) :
    Option (Except Int Int) :=
  match rs with
  | [] => none
  | .ok (some st) :: _ => some (.ok (get_exit_code_from_status st))
  | .ok none :: rest => wait_for_exit_poll_unix rest
  | .err e :: rest =>
    if e = EINTR then wait_for_exit_poll_unix rest else some (.error e)

end ProcessSpawn

theorem firstNonEintr_cons_eintr {α : Type} (rest : List (SysRes α)) :
    firstNonEintr (.err EINTR :: rest) = firstNonEintr rest := by
  simp [firstNonEintr]

/-- The mapper's table: the neutral values `map_managed_signal_to_native`
does not send to the invalid marker `-1`. -/
theorem map_managed_supported_cases (x : Int)
    (h : PalProcess.map_managed_signal_to_native x ≠ -1) :
    x = 1 ∨ x = 2 ∨ x = 3 ∨ x = 6 ∨ x = 9 ∨ x = 10 ∨ x = 12 ∨ x = 13 ∨
    x = 14 ∨ x = 15 ∨ x = 17 ∨ x = 18 ∨ x = 19 ∨ x = 20 := by
  by_contra hx
  push_neg at hx
  obtain ⟨n1, n2, n3, n6, n9, n10, n12, n13, n14, n15, n17, n18, n19, n20⟩ := hx
  exact h (by simp only [PalProcess.map_managed_signal_to_native, if_neg n1,
    if_neg n2, if_neg n3, if_neg n6, if_neg n9, if_neg n10, if_neg n12,
    if_neg n13, if_neg n14, if_neg n15, if_neg n17, if_neg n18, if_neg n19,
    if_neg n20])

/-- C7: for every neutral signal the Mapper supports
(`map_managed_signal_to_native x ≠ -1`), the round trip
`to_native (to_neutral (to_native x)) = to_native x` holds. -/
theorem C7_signal_round_trip (x : Int)
    (h : PalProcess.map_managed_signal_to_native x ≠ -1) :
    PalProcess.map_managed_signal_to_native
      (PalProcess.map_native_signal_to_managed
        (PalProcess.map_managed_signal_to_native x)) =
    PalProcess.map_managed_signal_to_native x := by
  rcases map_managed_supported_cases x h with
    rfl|rfl|rfl|rfl|rfl|rfl|rfl|rfl|rfl|rfl|rfl|rfl|rfl|rfl <;> decide

/-- Witness for C7 at the concrete neutral signal 15 (terminate). -/
theorem C7_signal_round_trip_witness :
    PalProcess.map_managed_signal_to_native 15 ≠ -1 ∧
    PalProcess.map_managed_signal_to_native
      (PalProcess.map_native_signal_to_managed
        (PalProcess.map_managed_signal_to_native 15)) =
    PalProcess.map_managed_signal_to_native 15 :=
  ⟨by decide, C7_signal_round_trip 15 (by decide)⟩

/-- C1 counterexample: the claim includes `wait_for_exit` among the
status-reporting operations, but for a child terminated by native signal 9
(`si_code = CLD_KILLED`, `si_status = 9`) `wait_for_exit` returns the raw
`si_status` 9 — not `128 + 9` — and carries no neutral signal identifier;
its non-Linux helper `get_exit_code_from_status` returns `-1` for a child
terminated by native signal 15, not `128 + 15`. -/
theorem C1_counterexample :
    ProcessSpawn.wait_for_exit (-1) ⟨[], [.ok ⟨.CLD_KILLED, 9, 1234⟩]⟩ =
      some 9 ∧
    (9 : Int) ≠ 128 + 9 ∧
    ProcessSpawn.get_exit_code_from_status (.signaled 15) = -1 ∧
    (-1 : Int) ≠ 128 + 15 := by
  decide

/-- C1 (amended): `try_get_exit_code` and `wait_for_exit_and_reap` (both
platform variants) report `128 + native signal` as the exit code together with
the neutral-mapped signal identifier for a signal-terminated child, and a
still-running child is reported with neither; `wait_for_exit`
(process_spawn.c) instead returns the raw `si_status` on Linux and `-1` via
`get_exit_code_from_status` on other platforms, with no neutral signal. -/
theorem C1_amended_status_reporting :
    (∀ (rs : List (SysRes PalProcess.Siginfo)) (info : PalProcess.Siginfo),
      firstNonEintr rs = some (.ok info) →
      (info.si_code = .CLD_KILLED ∨ info.si_code = .CLD_DUMPED) →
      info.si_pid ≠ 0 →
      PalProcess.try_get_exit_code rs =
        some (some (128 + info.si_status,
          PalProcess.map_native_signal_to_managed info.si_status)) ∧
      PalProcess.wait_for_exit_and_reap rs =
        some (some (128 + info.si_status,
          PalProcess.map_native_signal_to_managed info.si_status))) ∧
    (∀ (rs : List (SysRes (Option PalProcess.WaitStatus))) (s : Int),
      firstNonEintr rs = some (.ok (some (.signaled s))) →
      PalProcess.try_get_exit_code_no_pidfd rs =
        some (some (128 + s, PalProcess.map_native_signal_to_managed s))) ∧
    (∀ (rs : List (SysRes PalProcess.WaitStatus)) (s : Int),
      firstNonEintr rs = some (.ok (.signaled s)) →
      PalProcess.wait_for_exit_and_reap_no_pidfd rs =
        some (some (128 + s, PalProcess.map_native_signal_to_managed s))) ∧
    (∀ (rs : List (SysRes PalProcess.Siginfo)) (info : PalProcess.Siginfo),
      firstNonEintr rs = some (.ok info) → info.si_pid = 0 →
      PalProcess.try_get_exit_code rs = some none) ∧
    (∀ (rs : List (SysRes (Option PalProcess.WaitStatus))),
      firstNonEintr rs = some (.ok none) →
      PalProcess.try_get_exit_code_no_pidfd rs = some none) ∧
    (∀ (o : ProcessSpawn.WaitForExitOracle) (info : PalProcess.Siginfo),
      firstNonEintr o.reap = some (.ok info) →
      ProcessSpawn.wait_for_exit (-1) o = some info.si_status) ∧
    (∀ s : Int, ProcessSpawn.get_exit_code_from_status (.signaled s) = -1) := by
  refine ⟨?_, ?_, ?_, ?_, ?_, ?_, ?_⟩
  · intro rs info h hc hp
    constructor <;>
      [unfold PalProcess.try_get_exit_code;
       unfold PalProcess.wait_for_exit_and_reap] <;>
      rw [h] <;> rcases hc with hc | hc <;>
      simp [PalProcess.map_status, hc, hp]
  · intro rs s h
    unfold PalProcess.try_get_exit_code_no_pidfd
    rw [h]
    simp [PalProcess.map_status_no_pidfd]
  · intro rs s h
    unfold PalProcess.wait_for_exit_and_reap_no_pidfd
    rw [h]
    simp [PalProcess.map_status_no_pidfd]
  · intro rs info h hp
    unfold PalProcess.try_get_exit_code
    rw [h]
    simp [hp]
  · intro rs h
    unfold PalProcess.try_get_exit_code_no_pidfd
    rw [h]
  · intro o info h
    unfold ProcessSpawn.wait_for_exit ProcessSpawn.wait_for_exit_linux_waitid
    rw [if_pos rfl, h]
  · intro s
    rfl

/-- Witness for C1 (amended) at concrete inputs: a child killed by native
signal 15 observed through each reporting operation, and a still-running
child observed through the non-blocking polls. -/
theorem C1_amended_status_reporting_witness :
    (PalProcess.try_get_exit_code [.ok ⟨.CLD_KILLED, 15, 42⟩] =
      some (some (128 + 15, PalProcess.map_native_signal_to_managed 15)) ∧
     PalProcess.wait_for_exit_and_reap [.ok ⟨.CLD_KILLED, 15, 42⟩] =
      some (some (128 + 15, PalProcess.map_native_signal_to_managed 15))) ∧
    PalProcess.try_get_exit_code_no_pidfd [.ok (some (.signaled 15))] =
      some (some (128 + 15, PalProcess.map_native_signal_to_managed 15)) ∧
    PalProcess.wait_for_exit_and_reap_no_pidfd [.ok (.signaled 15)] =
      some (some (128 + 15, PalProcess.map_native_signal_to_managed 15)) ∧
    PalProcess.try_get_exit_code [.ok ⟨.CLD_EXITED, 0, 0⟩] = some none ∧
    PalProcess.try_get_exit_code_no_pidfd [.ok none] = some none ∧
    ProcessSpawn.wait_for_exit (-1) ⟨[], [.ok ⟨.CLD_KILLED, 15, 42⟩]⟩ =
      some 15 ∧
    ProcessSpawn.get_exit_code_from_status (.signaled 15) = -1 :=
  ⟨C1_amended_status_reporting.1 _ ⟨.CLD_KILLED, 15, 42⟩ rfl (Or.inl rfl)
      (by decide),
   C1_amended_status_reporting.2.1 _ 15 rfl,
   C1_amended_status_reporting.2.2.1 _ 15 rfl,
   C1_amended_status_reporting.2.2.2.1 _ ⟨.CLD_EXITED, 0, 0⟩ rfl rfl,
   C1_amended_status_reporting.2.2.2.2.1 _ rfl,
   C1_amended_status_reporting.2.2.2.2.2.1 ⟨[], [.ok ⟨.CLD_KILLED, 15, 42⟩]⟩
      ⟨.CLD_KILLED, 15, 42⟩ rfl,
   C1_amended_status_reporting.2.2.2.2.2.2 15⟩

/-- Helper: when asked to deliver SIGKILL (as
`wait_for_exit_or_kill_on_timeout` does), the signal maps validly, so the
result of `send_signal` is exactly the delivery syscall's result. -/
theorem send_signal_sigkill_result (hasPS : Bool) (pidfd : Int)
    (sys : SysRes Unit) :
    (PalProcess.send_signal hasPS pidfd
      (PalProcess.map_native_signal_to_managed SIGKILL) sys).1 =
      sysToExcept sys := by
  unfold PalProcess.send_signal PalProcess.map_native_signal_to_managed
    PalProcess.map_managed_signal_to_native
  norm_num [SIGHUP, SIGINT, SIGQUIT, SIGABRT, SIGKILL, SIGUSR1, SIGUSR2,
    SIGPIPE, SIGALRM, SIGTERM, SIGCHLD, SIGCONT, SIGSTOP, SIGTSTP]
  split_ifs <;> rfl

/-- C5: in `wait_for_exit_or_kill_on_timeout`, when the bounded wait times
out and the kill step fails with ESRCH, no error is returned: the operation
proceeds to reap and returns the final status (with the timeout flag cleared
back to 0); a kill failure with any other errno is returned as an error,
without consulting the final reap. -/
theorem C5_kill_esrch_benign :
    (∀ (hasPS : Bool) (pidfd : Int) (o : PalProcess.TryWaitOracle)
       (finalReap : List (SysRes PalProcess.Siginfo)) (c s : Int),
      PalProcess.try_wait_for_exit o = some .timedOut →
      PalProcess.wait_for_exit_and_reap finalReap = some (some (c, s)) →
      PalProcess.wait_for_exit_or_kill_on_timeout hasPS pidfd o
        (.err ESRCH) finalReap = some (.done c s false)) ∧
    (∀ (hasPS : Bool) (pidfd : Int) (o : PalProcess.TryWaitOracle)
       (finalReap : List (SysRes PalProcess.Siginfo)) (e : Int),
      PalProcess.try_wait_for_exit o = some .timedOut →
      e ≠ ESRCH →
      PalProcess.wait_for_exit_or_kill_on_timeout hasPS pidfd o
        (.err e) finalReap = some (.killError e)) := by
  constructor
  · intro hasPS pidfd o finalReap c s h1 h2
    unfold PalProcess.wait_for_exit_or_kill_on_timeout
    rw [h1, send_signal_sigkill_result, h2]
    simp [sysToExcept]
  · intro hasPS pidfd o finalReap e h1 he
    unfold PalProcess.wait_for_exit_or_kill_on_timeout
    rw [h1, send_signal_sigkill_result]
    simp [sysToExcept, he]

/-- Witness for C5: a wait that times out (`poll` returns 0), then an ESRCH
kill failure followed by a reap of a child killed by signal 9; and,
separately, a kill failure with errno 13 surfaced as an error. -/
theorem C5_kill_esrch_benign_witness :
    PalProcess.wait_for_exit_or_kill_on_timeout true 7
      ⟨[.ok false], []⟩ (.err ESRCH) [.ok ⟨.CLD_KILLED, 9, 42⟩] =
      some (.done (128 + 9) (PalProcess.map_native_signal_to_managed 9)
        false) ∧
    PalProcess.wait_for_exit_or_kill_on_timeout true 7
      ⟨[.ok false], []⟩ (.err 13) [.ok ⟨.CLD_KILLED, 9, 42⟩] =
      some (.killError 13) :=
  ⟨C5_kill_esrch_benign.1 true 7 ⟨[.ok false], []⟩ _ _ _ rfl rfl,
   C5_kill_esrch_benign.2 true 7 ⟨[.ok false], []⟩ _ 13 rfl (by decide)⟩

/-- C6: for every handle and every neutral signal outside the Signal
Mapper's table (both files' tables), `send_signal` returns EINVAL at once
and the list of attempted signal-delivery syscalls is empty. -/
theorem C6_invalid_signal_no_syscall :
    (∀ (hasPS : Bool) (pidfd msig : Int) (sys : SysRes Unit),
      PalProcess.map_managed_signal_to_native msig = -1 →
      PalProcess.send_signal hasPS pidfd msig sys = (.error EINVAL, [])) ∧
    (∀ (isLinux : Bool) (pidfd msig : Int) (sys : SysRes Unit),
      ProcessSpawn.map_managed_signal_to_native msig = -1 →
      ProcessSpawn.send_signal isLinux pidfd msig sys = (.error EINVAL, [])) := by
  constructor
  · intro hasPS pidfd msig sys h
    unfold PalProcess.send_signal
    simp [h]
  · intro isLinux pidfd msig sys h
    unfold ProcessSpawn.send_signal
    simp [h]

/-- Witness for C6 at neutral signal 5, outside both tables. -/
theorem C6_invalid_signal_no_syscall_witness :
    PalProcess.send_signal true 7 5 (.ok ()) = (.error EINVAL, []) ∧
    ProcessSpawn.send_signal true 7 5 (.ok ()) = (.error EINVAL, []) :=
  ⟨C6_invalid_signal_no_syscall.1 true 7 5 (.ok ()) (by decide),
   C6_invalid_signal_no_syscall.2 true 7 5 (.ok ()) (by decide)⟩

/-- C9: whenever `create_suspended` is requested, `spawn_process` selects a
primitive in which the parent resumes immediately (clone3 without
`CLONE_VFORK`, or fork); a vfork-semantics primitive is selected exactly
when suspension is not requested. -/
theorem C9_suspended_selects_parent_resumes :
    ∀ (hasClone3 createSuspended : Bool),
      usesVforkSemantics
        (PalProcess.choose_fork_primitive hasClone3 createSuspended) =
        !createSuspended ∧
      PalProcess.choose_fork_primitive hasClone3 true =
        (if hasClone3 then .clone3 false else .fork) := by
  decide

/-- C10: on a platform lacking the suspend primitive of its path (no
`POSIX_SPAWN_START_SUSPENDED` on the posix_spawn path, no `SYS_tgkill` on
the fork path), a suspended spawn fails with ENOTSUP with an empty event
trace: no pipe is created, no child is spawned, no descriptor exists to
leak. -/
theorem C10_enotsup_before_any_resource :
    (∀ (cfg : PalProcess.SpawnConfig) (o : PalProcess.SpawnOracle),
      cfg.hasSysTgkill = false → cfg.create_suspended = true →
      PalProcess.spawn_process_fork cfg o = (.fails ENOTSUP, [])) ∧
    (∀ (cfg : PalProcess.PosixSpawnConfig) (o : PalProcess.PosixSpawnOracle),
      cfg.hasStartSuspended = false → cfg.create_suspended = true →
      PalProcess.spawn_process_posix cfg o = (.fails ENOTSUP, [])) := by
  constructor
  · intro cfg o h1 h2
    unfold PalProcess.spawn_process_fork
    rw [if_pos (by simp [h1, h2])]
  · intro cfg o h1 h2
    unfold PalProcess.spawn_process_posix
    rw [if_pos (by simp [h1, h2])]

/-- Witness for C10: concrete suspended spawns on platforms lacking the
respective suspend primitive. -/
theorem C10_enotsup_before_any_resource_witness :
    PalProcess.spawn_process_fork ⟨true, false, true⟩
      ⟨.ok (), .ok (), .ok (), .eof, .ok (), []⟩ = (.fails ENOTSUP, []) ∧
    PalProcess.spawn_process_posix ⟨false, true, true, false⟩
      ⟨.ok (), .ok (), .ok ()⟩ = (.fails ENOTSUP, []) :=
  ⟨C10_enotsup_before_any_resource.1 ⟨true, false, true⟩
      ⟨.ok (), .ok (), .ok (), .eof, .ok (), []⟩ rfl rfl,
   C10_enotsup_before_any_resource.2 ⟨false, true, true, false⟩
      ⟨.ok (), .ok (), .ok ()⟩ rfl rfl⟩

/-- C2 counterexample: with `create_suspended` requested and every bootstrap
step succeeding, an `execve` failure (errno ENOENT) makes the child exit 127
*without* writing the errno into the error-reporting pipe — the pipe was
already closed during the suspend handshake — contradicting the claim for
the start-suspended configuration. -/
theorem C2_counterexample :
    PalProcess.child_bootstrap
      ⟨false, false, true, true, 0, 1, 2, false⟩
      ⟨.ok (), .ok (), 42, .ok (), .ok (), .ok (), .ok (), .ok (),
        some ENOENT⟩ = .exit127NoWrite ∧
    PalProcess.ChildOutcome.exit127NoWrite ≠ .wroteErrnoExit127 ENOENT := by
  decide

/-- C2 (amended): when every bootstrap step before `execve` succeeds and
`execve` fails with errno `e`, the child writes `e` into the error-reporting
pipe and exits 127 — except under `create_suspended`, where the wait pipe
was already closed as the suspend handshake, so the child exits 127 without
writing. -/
theorem C2_amended_exec_failure_reporting :
    ∀ (cfg : PalProcess.ChildConfig) (o : PalProcess.ChildOracle) (e : Int),
      o.setpgidRes = .ok () → o.prctlRes = .ok () → o.ppid ≠ 1 →
      o.dup2ExitPipeRes = .ok () → o.dup2StdinRes = .ok () →
      o.dup2StdoutRes = .ok () → o.dup2StderrRes = .ok () →
      o.chdirRes = .ok () → o.execveErr = some e →
      PalProcess.child_bootstrap cfg o =
        (if cfg.create_suspended then .exit127NoWrite
         else .wroteErrnoExit127 e) := by
  intro cfg o e h1 h2 h3 h4 h5 h6 h7 h8 h9
  unfold PalProcess.child_bootstrap PalProcess.child_bootstrap_streams
  simp [h1, h2, h3, h4, h5, h6, h7, h8, h9]

/-- Witness for C2 (amended): a non-suspended and a suspended launch, both
with `execve` failing with ENOENT after an otherwise clean bootstrap. -/
theorem C2_amended_exec_failure_reporting_witness :
    PalProcess.child_bootstrap ⟨false, false, false, false, 5, 6, 7, true⟩
      ⟨.ok (), .ok (), 42, .ok (), .ok (), .ok (), .ok (), .ok (),
        some ENOENT⟩ = .wroteErrnoExit127 ENOENT ∧
    PalProcess.child_bootstrap ⟨false, false, false, true, 5, 6, 7, true⟩
      ⟨.ok (), .ok (), 42, .ok (), .ok (), .ok (), .ok (), .ok (),
        some ENOENT⟩ = .exit127NoWrite := by
  constructor
  · simpa using C2_amended_exec_failure_reporting
      ⟨false, false, false, false, 5, 6, 7, true⟩
      ⟨.ok (), .ok (), 42, .ok (), .ok (), .ok (), .ok (), .ok (),
        some ENOENT⟩ ENOENT rfl rfl (by decide) rfl rfl rfl rfl rfl rfl
  · simpa using C2_amended_exec_failure_reporting
      ⟨false, false, false, true, 5, 6, 7, true⟩
      ⟨.ok (), .ok (), 42, .ok (), .ok (), .ok (), .ok (), .ok (),
        some ENOENT⟩ ENOENT rfl rfl (by decide) rfl rfl rfl rfl rfl rfl

/-- C3 counterexample: the parent reads a full error code (ENOENT) from the
bootstrap pipe, but the single reap wait is interrupted (EINTR, not retried
here), so the launch returns the child's error without the child ever being
reaped — a zombie remains, contradicting "the already-created child is
always reaped before returning". -/
theorem C3_counterexample :
    (PalProcess.spawn_process_fork ⟨true, true, false⟩
      ⟨.ok (), .ok (), .ok (), .full ENOENT, .err EINTR, []⟩).1 =
      .fails ENOENT ∧
    SpawnEvent.reaped ∉
      (PalProcess.spawn_process_fork ⟨true, true, false⟩
        ⟨.ok (), .ok (), .ok (), .full ENOENT, .err EINTR, []⟩).2 := by
  decide

/-- C3 (amended): when the parent reads a full error code `e` from the
bootstrap pipe, the launch returns an error carrying `e` (no handle), closes
every descriptor it created (the wait pipe's two ends, the exit pipe's two
ends, and the pidfd on the clone3 path), and issues a single unretried reap
wait; the child is reaped exactly when that wait call is not interrupted —
an EINTR on it leaves the child unreaped. -/
theorem C3_amended_bootstrap_error_cleanup :
    ∀ (cfg : PalProcess.SpawnConfig) (o : PalProcess.SpawnOracle) (e : Int),
      (cfg.hasSysTgkill = true ∨ cfg.create_suspended = false) →
      o.waitPipeRes = .ok () → o.exitPipeRes = .ok () → o.forkRes = .ok () →
      o.readRes = .full e →
      (PalProcess.spawn_process_fork cfg o).1 = .fails e ∧
      SpawnEvent.reapAttempted ∈ (PalProcess.spawn_process_fork cfg o).2 ∧
      (o.reapRes = .ok () →
        SpawnEvent.reaped ∈ (PalProcess.spawn_process_fork cfg o).2) ∧
      (∀ e2, o.reapRes = .err e2 →
        SpawnEvent.reaped ∉ (PalProcess.spawn_process_fork cfg o).2) ∧
      SpawnEvent.closedFd .waitPipeRead ∈
        (PalProcess.spawn_process_fork cfg o).2 ∧
      SpawnEvent.closedFd .waitPipeWrite ∈
        (PalProcess.spawn_process_fork cfg o).2 ∧
      SpawnEvent.closedFd .exitPipeRead ∈
        (PalProcess.spawn_process_fork cfg o).2 ∧
      SpawnEvent.closedFd .exitPipeWrite ∈
        (PalProcess.spawn_process_fork cfg o).2 ∧
      (cfg.hasClone3 = true →
        SpawnEvent.closedFd .pidfd ∈ (PalProcess.spawn_process_fork cfg o).2) := by
  intro cfg o e hns h1 h2 h3 h4
  have hcond : ¬(¬cfg.hasSysTgkill = true ∧ cfg.create_suspended = true) := by
    rcases hns with h | h <;> simp [h]
  unfold PalProcess.spawn_process_fork
  rw [if_neg hcond, h1, h2, h3, h4]
  cases hre : o.reapRes <;> cases hcl : cfg.hasClone3 <;> simp

/-- Witness for C3 (amended): a clone3-path launch whose bootstrap fails
with ENOENT and whose single reap wait succeeds. -/
theorem C3_amended_bootstrap_error_cleanup_witness :
    (PalProcess.spawn_process_fork ⟨true, true, false⟩
      ⟨.ok (), .ok (), .ok (), .full ENOENT, .ok (), []⟩).1 = .fails ENOENT ∧
    SpawnEvent.reaped ∈
      (PalProcess.spawn_process_fork ⟨true, true, false⟩
        ⟨.ok (), .ok (), .ok (), .full ENOENT, .ok (), []⟩).2 ∧
    SpawnEvent.closedFd .pidfd ∈
      (PalProcess.spawn_process_fork ⟨true, true, false⟩
        ⟨.ok (), .ok (), .ok (), .full ENOENT, .ok (), []⟩).2 := by
  have h := C3_amended_bootstrap_error_cleanup ⟨true, true, false⟩
    ⟨.ok (), .ok (), .ok (), .full ENOENT, .ok (), []⟩ ENOENT
    (Or.inl rfl) rfl rfl rfl rfl
  exact ⟨h.1, h.2.2.1 rfl, h.2.2.2.2.2.2.2.2 rfl⟩

/-- C4 counterexample: the bootstrap-pipe read inside launch fails with
EINTR, yet exactly one read attempt appears in the trace — the read is not
retried; worse, the failure is indistinguishable from the success signal, so
the launch returns a handle. -/
theorem C4_counterexample :
    PalProcess.spawn_process_fork ⟨true, true, false⟩
      ⟨.ok (), .ok (), .ok (), .fail EINTR, .ok (), []⟩ =
      (.succeeds true,
       [.pipeCreated .waitPipe, .pipeCreated .exitPipe,
        .childCreated (.clone3 true), .closedFd .waitPipeWrite,
        .closedFd .exitPipeWrite, .readAttempt, .closedFd .waitPipeRead]) ∧
    ((PalProcess.spawn_process_fork ⟨true, true, false⟩
      ⟨.ok (), .ok (), .ok (), .fail EINTR, .ok (), []⟩).2.count
        .readAttempt = 1) := by
  decide

/-- Helper: the blocking reap's EINTR loop ignores a leading EINTR. -/
theorem wait_for_exit_and_reap_cons_eintr
    (rs : List (SysRes PalProcess.Siginfo)) :
    PalProcess.wait_for_exit_and_reap (.err EINTR :: rs) =
      PalProcess.wait_for_exit_and_reap rs := by
  unfold PalProcess.wait_for_exit_and_reap
  rw [firstNonEintr_cons_eintr]

/-- Helper: the Linux reap helper's EINTR loop ignores a leading EINTR. -/
theorem wait_for_exit_linux_waitid_cons_eintr
    (rs : List (SysRes PalProcess.Siginfo)) :
    ProcessSpawn.wait_for_exit_linux_waitid (.err EINTR :: rs) =
      ProcessSpawn.wait_for_exit_linux_waitid rs := by
  unfold ProcessSpawn.wait_for_exit_linux_waitid
  rw [firstNonEintr_cons_eintr]

/-- C4 (amended): the waits, polls, and reads of the Exit Monitor operations
and of launch retry EINTR transparently (prepending an EINTR failure to any
call sequence never changes the result — covering `try_get_exit_code`,
`wait_for_exit_and_reap`, `try_wait_for_exit`, all branches of
`wait_for_exit`, and the suspended-stop wait inside launch), with exactly
three single unretried calls as exceptions: launch's bootstrap-pipe read
(an EINTR failure is treated as the success signal), launch's
bootstrap-failure reap wait (an EINTR leaves the child unreaped), and the
single `kevent` of `wait_for_exit`'s macOS timeout branch, whose EINTR
failure is returned to the caller as an error. -/
theorem C4_amended_eintr_retried :
    (∀ rs : List (SysRes PalProcess.Siginfo),
      PalProcess.try_get_exit_code (.err EINTR :: rs) =
        PalProcess.try_get_exit_code rs) ∧
    (∀ rs : List (SysRes (Option PalProcess.WaitStatus)),
      PalProcess.try_get_exit_code_no_pidfd (.err EINTR :: rs) =
        PalProcess.try_get_exit_code_no_pidfd rs) ∧
    (∀ rs : List (SysRes PalProcess.Siginfo),
      PalProcess.wait_for_exit_and_reap (.err EINTR :: rs) =
        PalProcess.wait_for_exit_and_reap rs) ∧
    (∀ rs : List (SysRes PalProcess.WaitStatus),
      PalProcess.wait_for_exit_and_reap_no_pidfd (.err EINTR :: rs) =
        PalProcess.wait_for_exit_and_reap_no_pidfd rs) ∧
    (∀ (poll : List (SysRes Bool)) (reap : List (SysRes PalProcess.Siginfo)),
      PalProcess.try_wait_for_exit ⟨.err EINTR :: poll, reap⟩ =
        PalProcess.try_wait_for_exit ⟨poll, reap⟩ ∧
      PalProcess.try_wait_for_exit ⟨poll, .err EINTR :: reap⟩ =
        PalProcess.try_wait_for_exit ⟨poll, reap⟩) ∧
    (∀ rs : List (SysRes PalProcess.Siginfo),
      ProcessSpawn.wait_for_exit_linux_waitid (.err EINTR :: rs) =
        ProcessSpawn.wait_for_exit_linux_waitid rs) ∧
    (∀ rs : List (SysRes PalProcess.WaitStatus),
      ProcessSpawn.wait_for_exit_indefinite_unix (.err EINTR :: rs) =
        ProcessSpawn.wait_for_exit_indefinite_unix rs) ∧
    (∀ (cfg : PalProcess.SpawnConfig) (o : PalProcess.SpawnOracle),
      PalProcess.spawn_process_fork cfg
        {o with stopWait := .err EINTR :: o.stopWait} =
        PalProcess.spawn_process_fork cfg o) ∧
    (∀ (timeout_ms : Int) (poll : List (SysRes Bool))
       (reap : List (SysRes PalProcess.Siginfo)),
      ProcessSpawn.wait_for_exit timeout_ms ⟨.err EINTR :: poll, reap⟩ =
        ProcessSpawn.wait_for_exit timeout_ms ⟨poll, reap⟩ ∧
      ProcessSpawn.wait_for_exit timeout_ms ⟨poll, .err EINTR :: reap⟩ =
        ProcessSpawn.wait_for_exit timeout_ms ⟨poll, reap⟩) ∧
    (∀ o : ProcessSpawn.MacTimeoutOracle,
      ProcessSpawn.wait_for_exit_macos_timeout
        {o with reap := .err EINTR :: o.reap} =
        ProcessSpawn.wait_for_exit_macos_timeout o) ∧
    (∀ rs : List (SysRes (Option PalProcess.WaitStatus)),
      ProcessSpawn.wait_for_exit_poll_unix (.err EINTR :: rs) =
        ProcessSpawn.wait_for_exit_poll_unix rs) ∧
    (∀ o : ProcessSpawn.MacTimeoutOracle,
      o.kqueueRes = .ok () → o.fcntlRes = .ok () →
      o.keventRes = .err EINTR →
      ProcessSpawn.wait_for_exit_macos_timeout o = some (.error EINTR)) := by
  refine ⟨?_, ?_, ?_, ?_, ?_, ?_, ?_, ?_, ?_, ?_, ?_, ?_⟩
  · intro rs
    unfold PalProcess.try_get_exit_code
    rw [firstNonEintr_cons_eintr]
  · intro rs
    unfold PalProcess.try_get_exit_code_no_pidfd
    rw [firstNonEintr_cons_eintr]
  · intro rs
    exact wait_for_exit_and_reap_cons_eintr rs
  · intro rs
    unfold PalProcess.wait_for_exit_and_reap_no_pidfd
    rw [firstNonEintr_cons_eintr]
  · intro poll reap
    constructor <;>
      · unfold PalProcess.try_wait_for_exit
        simp only [firstNonEintr_cons_eintr,
          wait_for_exit_and_reap_cons_eintr]
  · intro rs
    exact wait_for_exit_linux_waitid_cons_eintr rs
  · intro rs
    unfold ProcessSpawn.wait_for_exit_indefinite_unix
    rw [firstNonEintr_cons_eintr]
  · intro cfg o
    obtain ⟨w, x, f, r, rp, sw⟩ := o
    cases w <;> cases x <;> cases f <;> cases r <;>
      simp [PalProcess.spawn_process_fork, firstNonEintr_cons_eintr]
  · intro timeout_ms poll reap
    constructor <;>
      · by_cases ht : timeout_ms = -1 <;>
          simp [ProcessSpawn.wait_for_exit, ht, firstNonEintr_cons_eintr,
            wait_for_exit_linux_waitid_cons_eintr]
  · intro o
    obtain ⟨kq, fc, kv, rp⟩ := o
    cases kq <;> cases fc <;> cases kv <;>
      simp [ProcessSpawn.wait_for_exit_macos_timeout, firstNonEintr_cons_eintr]
  · intro rs
    rfl
  · intro o h1 h2 h3
    unfold ProcessSpawn.wait_for_exit_macos_timeout
    rw [h1, h2, h3]

/-- Witness for C4 (amended): the macOS timeout branch returns the EINTR
failure of its single `kevent` call to the caller, and a leading EINTR on
the blocking reap is retried without changing the result. -/
theorem C4_amended_eintr_retried_witness :
    ProcessSpawn.wait_for_exit_macos_timeout
      ⟨.ok (), .ok (), .err EINTR, [.ok (.exited 0)]⟩ =
      some (.error EINTR) ∧
    PalProcess.wait_for_exit_and_reap
      (.err EINTR :: [.ok ⟨.CLD_EXITED, 0, 42⟩]) =
      PalProcess.wait_for_exit_and_reap [.ok ⟨.CLD_EXITED, 0, 42⟩] :=
  ⟨C4_amended_eintr_retried.2.2.2.2.2.2.2.2.2.2.2
      ⟨.ok (), .ok (), .err EINTR, [.ok (.exited 0)]⟩ rfl rfl rfl,
   C4_amended_eintr_retried.2.2.1 [.ok ⟨.CLD_EXITED, 0, 42⟩]⟩

/-- Helper: one reset-loop iteration at a different signal number leaves the
disposition of `s` unchanged. -/
theorem resetStep_apply_ne (d : Int → PalProcess.Disp) (a s : Int)
    (h : s ≠ a) : PalProcess.resetStep d a s = d s := by
  unfold PalProcess.resetStep
  split_ifs with h1 h2
  · rfl
  · exact Function.update_noteq h _ _
  · rfl

/-- Helper: one reset-loop iteration never changes a disposition that is not
a custom handler. -/
theorem resetStep_preserves (d : Int → PalProcess.Disp) (a s : Int)
    (h : d s ≠ .custom) : PalProcess.resetStep d a s = d s := by
  unfold PalProcess.resetStep
  split_ifs with h1 h2
  · rfl
  · rw [Function.update_apply]
    split_ifs with h3
    · exact absurd (h3 ▸ h2) h
    · rfl
  · rfl

/-- Helper: the reset fold never changes a disposition that is not a custom
handler. -/
theorem resetFold_preserved :
    ∀ (L : List Int) (d : Int → PalProcess.Disp) (s : Int),
      d s ≠ .custom → PalProcess.resetSignalFold L d s = d s := by
  intro L
  induction L with
  | nil => intro d s _; rfl
  | cons a L ih =>
    intro d s h
    have hstep := resetStep_preserves d a s h
    show PalProcess.resetSignalFold L (PalProcess.resetStep d a) s = d s
    rw [ih (PalProcess.resetStep d a) s (by rw [hstep]; exact h), hstep]

/-- Helper: the reset fold never touches the two unalterable signals. -/
theorem resetFold_skip :
    ∀ (L : List Int) (d : Int → PalProcess.Disp) (s : Int),
      s = SIGKILL ∨ s = SIGSTOP → PalProcess.resetSignalFold L d s = d s := by
  intro L
  induction L with
  | nil => intro d s _; rfl
  | cons a L ih =>
    intro d s h
    have hstep : PalProcess.resetStep d a s = d s := by
      by_cases hs : s = a
      · subst hs
        unfold PalProcess.resetStep
        rw [if_pos h]
      · exact resetStep_apply_ne d a s hs
    show PalProcess.resetSignalFold L (PalProcess.resetStep d a) s = d s
    rw [ih (PalProcess.resetStep d a) s h, hstep]

/-- Helper: the reset fold never touches a signal number it does not visit. -/
theorem resetFold_not_mem :
    ∀ (L : List Int) (d : Int → PalProcess.Disp) (s : Int),
      s ∉ L → PalProcess.resetSignalFold L d s = d s := by
  intro L
  induction L with
  | nil => intro d s _; rfl
  | cons a L ih =>
    intro d s h
    have hs : s ≠ a := fun heq => h (heq ▸ List.mem_cons_self a L)
    have hstep := resetStep_apply_ne d a s hs
    show PalProcess.resetSignalFold L (PalProcess.resetStep d a) s = d s
    rw [ih (PalProcess.resetStep d a) s (fun hm => h (List.mem_cons_of_mem a hm)),
      hstep]

/-- Helper: a visited, alterable signal whose disposition is a custom
handler is reset to the default disposition by the fold. -/
theorem resetFold_custom :
    ∀ (L : List Int) (d : Int → PalProcess.Disp) (s : Int),
      s ∈ L → s ≠ SIGKILL → s ≠ SIGSTOP → d s = .custom →
      PalProcess.resetSignalFold L d s = .dfl := by
  intro L
  induction L with
  | nil => intro d s hmem; exact absurd hmem (List.not_mem_nil s)
  | cons a L ih =>
    intro d s hmem hk hst hc
    by_cases hs : s = a
    · subst hs
      have hstep : PalProcess.resetStep d s = Function.update d s .dfl := by
        unfold PalProcess.resetStep
        rw [if_neg (by tauto), if_pos hc]
      have hval : Function.update d s PalProcess.Disp.dfl s = .dfl :=
        Function.update_same s .dfl d
      show PalProcess.resetSignalFold L (PalProcess.resetStep d s) s = .dfl
      rw [hstep, resetFold_preserved L _ s (by rw [hval]; decide), hval]
    · have hstep := resetStep_apply_ne d a s hs
      have hmem' : s ∈ L := by
        rcases List.mem_cons.mp hmem with h | h
        · exact absurd h hs
        · exact h
      show PalProcess.resetSignalFold L (PalProcess.resetStep d a) s = .dfl
      exact ih (PalProcess.resetStep d a) s hmem' hk hst (by rw [hstep]; exact hc)

/-- Helper: the loop `for (int sig = 1; sig < NSIG; sig++)` visits exactly
the signal numbers `1 ≤ s < NSIG`. -/
theorem mem_sigList (nsig : Nat) (s : Int) :
    s ∈ PalProcess.sigList nsig ↔ 1 ≤ s ∧ s < (nsig : Int) := by
  unfold PalProcess.sigList
  rw [List.mem_map]
  constructor
  · rintro ⟨n, hn, rfl⟩
    rw [List.mem_range'_1] at hn
    simp only [Int.ofNat_eq_natCast]
    omega
  · rintro ⟨h1, h2⟩
    refine ⟨s.toNat, ?_, ?_⟩
    · rw [List.mem_range'_1]
      omega
    · simp only [Int.ofNat_eq_natCast]
      omega

/-- C8 counterexample: on the posix_spawn launch path the source requests
`POSIX_SPAWN_SETSIGDEF` over a full signal set, so a disposition that was
*ignored* (here: SIGUSR1) starts as the default action in the child — the
claim says ignored dispositions are left untouched on every launch path. -/
theorem C8_counterexample :
    PalProcess.posixSpawnSigReset
      (fun s => if s = SIGUSR1 then .ign else .dfl) SIGUSR1 = .dfl ∧
    (fun s => if s = SIGUSR1 then PalProcess.Disp.ign else .dfl) SIGUSR1 =
      .ign ∧
    PalProcess.Disp.dfl ≠ .ign := by
  refine ⟨by decide, by decide, by decide⟩

/-- C8 (amended): on the fork/clone launch paths the child-bootstrap loop
resets to default exactly the dispositions with a custom handler among the
visited, alterable signals, leaving ignored/default dispositions and the two
unalterable signals untouched; on the posix_spawn path every alterable
signal's disposition — ignored ones included — is reset to default. -/
theorem C8_amended_signal_reset :
    (∀ (nsig : Nat) (d : Int → PalProcess.Disp) (s : Int),
      PalProcess.resetSignalLoop nsig d s =
        if 1 ≤ s ∧ s < (nsig : Int) ∧ s ≠ SIGKILL ∧ s ≠ SIGSTOP ∧
           d s = .custom
        then .dfl else d s) ∧
    (∀ (d : Int → PalProcess.Disp) (s : Int),
      s ≠ SIGKILL → s ≠ SIGSTOP → PalProcess.posixSpawnSigReset d s = .dfl) ∧
    (∀ d : Int → PalProcess.Disp,
      PalProcess.posixSpawnSigReset d SIGKILL = d SIGKILL ∧
      PalProcess.posixSpawnSigReset d SIGSTOP = d SIGSTOP) := by
  refine ⟨?_, ?_, ?_⟩
  · intro nsig d s
    unfold PalProcess.resetSignalLoop
    split_ifs with h
    · exact resetFold_custom _ _ _ ((mem_sigList nsig s).2 ⟨h.1, h.2.1⟩)
        h.2.2.1 h.2.2.2.1 h.2.2.2.2
    · by_cases hc : d s = .custom
      · by_cases hk : s = SIGKILL ∨ s = SIGSTOP
        · exact resetFold_skip _ _ _ hk
        · push_neg at hk
          refine resetFold_not_mem _ _ _ fun hm => ?_
          exact h ⟨((mem_sigList nsig s).1 hm).1, ((mem_sigList nsig s).1 hm).2,
            hk.1, hk.2, hc⟩
      · exact resetFold_preserved _ _ _ hc
  · intro d s h1 h2
    unfold PalProcess.posixSpawnSigReset
    rw [if_neg (by tauto)]
  · intro d
    constructor <;> simp [PalProcess.posixSpawnSigReset]

/-- Witness for C8 (amended): a custom handler on signal 2 is reset by the
loop (NSIG = 65), an ignored signal 3 is left untouched by the loop, and the
posix_spawn path resets an ignored SIGUSR1 to default. -/
theorem C8_amended_signal_reset_witness :
    PalProcess.resetSignalLoop 65
      (fun s => if s = 2 then .custom else if s = 3 then .ign else .dfl) 2 =
      .dfl ∧
    PalProcess.resetSignalLoop 65
      (fun s => if s = 2 then .custom else if s = 3 then .ign else .dfl) 3 =
      .ign ∧
    PalProcess.posixSpawnSigReset (fun _ => .ign) SIGUSR1 = .dfl := by
  refine ⟨?_, ?_, ?_⟩
  · rw [C8_amended_signal_reset.1 65
      (fun s => if s = 2 then .custom else if s = 3 then .ign else .dfl) 2]
    decide
  · rw [C8_amended_signal_reset.1 65
      (fun s => if s = 2 then .custom else if s = 3 then .ign else .dfl) 3]
    decide
  · exact C8_amended_signal_reset.2.1 (fun _ => .ign) SIGUSR1 (by decide)
      (by decide)
